import Mathlib

/-!
Shallow embedding of the fortytwo-lang parser front end.

The definitions below are translated from the repository sources:
  * `src/src/parser.rs`  (the parser engine: `Parser` methods)
  * `src/src/ast.rs`     (the AST data model, operator precedence, token
                          to operator conversion)

Parts of the repository that the parser uses but that are not present under
`src/` (the `TokenKind` enum, the `PositionRange` / `PositionRangeContainer`
containers, `PositionRangeContainer::try_from2` and `PositionRange::default`)
are modelled from the specification; each such definition carries a doc
comment starting with `Modelled from the spec:`.

Modelling conventions:
  * The token stream (`Peekable<TokenIter>`) becomes an explicit `List Token`
    threaded through every function; `peek` is a head inspection, `next`
    removes the head.
  * Rust `f64` number payloads are carried opaquely by the parser (it never
    computes with them), so they are modelled by `Nat` payloads.
  * Fallible functions return `Except Failure (result, remaining tokens)`.
    A Rust `panic!` / failed `assert_eq!` is the explicit `Failure.panicked`
    outcome. Loops and recursion are driven by an explicit fuel parameter;
    running out of fuel is the distinguished outcome `Failure.fuel`, and a
    theorem below shows fuel linear in the token count never runs out.
  * `format!` debug renderings of tokens are modelled by `TokenKind.describe`
    (the token kind with its payload; the position part of Rust `Debug`
    output is elided, error positions are tracked in the `position` field).
-/

namespace FTL

/-- Modelled from the spec: a `Position` is 1-based line/column; a
`PositionRange` (as used by `src/src/parser.rs`) is a line together with an
inclusive column range `column.start()..=column.end()`. -/
structure PositionRange where
  line : Nat
  columnStart : Nat
  columnEnd : Nat
  deriving Repr, DecidableEq

/-- Modelled from the spec: `PositionRange::default()`, the fallback position
(line 1, column 1) used by `current_position` when the stream is exhausted. -/
def PositionRange.default : PositionRange :=
  ⟨1, 1, 1⟩

/-- From the repository (modelled from the spec, the module is not under
`src/`): a value paired with the source range it was read from. -/
structure PositionRangeContainer (α : Type) where
  data : α
  position : PositionRange
  deriving Repr, DecidableEq

/-- Modelled from the spec: the closed token kind set consumed by the parser
in `src/src/parser.rs` (identifiers, numbers, keywords, punctuation and the
six binary operator symbols). -/
inductive TokenKind where
  | Identifier (name : String)
  | Number (value : Nat)
  | FunctionDefinition
  | Extern
  | OpeningParentheses
  | ClosingParentheses
  | Colon
  | Comma
  | EndOfLine
  | Plus
  | Minus
  | Star
  | Slash
  | Less
  | Greater
  deriving Repr, DecidableEq

/-- A token: kind plus source position (`Token` in the repository). -/
abbrev Token := PositionRangeContainer TokenKind

/-- Rendering of a token kind, standing in for Rust `Debug` output inside
error messages (`format!` with the debug formatter in the source). -/
def TokenKind.describe : TokenKind → String
  | .Identifier name => "Identifier(" ++ name ++ ")"
  | .Number value => "Number(" ++ toString value ++ ")"
  | .FunctionDefinition => "FunctionDefinition"
  | .Extern => "Extern"
  | .OpeningParentheses => "OpeningParentheses"
  | .ClosingParentheses => "ClosingParentheses"
  | .Colon => "Colon"
  | .Comma => "Comma"
  | .EndOfLine => "EndOfLine"
  | .Plus => "Plus"
  | .Minus => "Minus"
  | .Star => "Star"
  | .Slash => "Slash"
  | .Less => "Less"
  | .Greater => "Greater"

/-- Debug rendering of `Option<Token>` for error messages. -/
def describeOptionToken : Option Token → String
  | none => "None"
  | some tok => "Some(" ++ tok.data.describe ++ ")"

/-- `FTLErrorKind` (spec section 7; the variants used by
`src/src/parser.rs` are `IllegalToken`, `IllegalSymbol`,
`ExpectedExpression`). -/
inductive FTLErrorKind where
  | IllegalToken
  | IllegalSymbol
  | ExpectedSymbol
  | ExpectedExpression
  deriving Repr, DecidableEq

/-- `FTLError`: kind, message and position of a parse error. -/
structure FTLError where
  kind : FTLErrorKind
  msg : String
  position : PositionRange
  deriving Repr, DecidableEq

/-- Outcome of a parsing function that did not produce a value: a returned
parse error, a Rust panic (failed `assert_eq!` / `assert!` / `panic!`), or
fuel exhaustion of the embedding (shown impossible for sufficient fuel). -/
inductive Failure where
  | err (e : FTLError)
  | panicked (msg : String)
  | fuel
  deriving Repr, DecidableEq

/-- `ParseResult<T>` plus the advanced token stream: the Rust methods mutate
`self.tokens`, which the embedding threads explicitly. -/
abbrev ParseResult (α : Type) := Except Failure (α × List Token)

/-- `BinaryOperator` from `src/src/ast.rs`. -/
inductive BinaryOperator where
  | Less
  | Greater
  | Add
  | Subtract
  | Multiply
  | Divide
  deriving Repr, DecidableEq

/-- The precedence table built in `impl PartialOrd for BinaryOperator`
(`src/src/ast.rs` lines 124-139): comparison 10, additive 20,
multiplicative 30. -/
def BinaryOperator.precedence : BinaryOperator → Nat
  | .Less => 10
  | .Greater => 10
  | .Add => 20
  | .Subtract => 20
  | .Multiply => 30
  | .Divide => 30

/-- Rust `a > b` on `BinaryOperator` via the derived-from-precedence
`PartialOrd`: `precedence[a].partial_cmp(&precedence[b]) == Some(Greater)`. -/
def BinaryOperator.gt (a b : BinaryOperator) : Bool :=
  b.precedence < a.precedence

/-- `impl TryFrom<TokenKind> for BinaryOperator` (`src/src/ast.rs` lines
141-157). Note the match arms: only `Less`, `Star`, `Plus`, `Minus` convert;
every other kind (including `Slash` and `Greater`) is an `IllegalToken`
error with the default position. -/
def BinaryOperator.tryFromTokenKind (kind : TokenKind) : Except FTLError BinaryOperator :=
  match kind with
  | .Less => .ok .Less
  | .Star => .ok .Multiply
  | .Plus => .ok .Add
  | .Minus => .ok .Subtract
  | other => .error
      ⟨.IllegalToken, "Expected binary operator, got " ++ other.describe,
        PositionRange.default⟩

/-- `BasicDataType` from `src/src/ast.rs`. -/
inductive BasicDataType where
  | Int
  | Float
  deriving Repr, DecidableEq

/-- `impl TryFrom<&str> for BasicDataType` (`src/src/ast.rs`): `int` and
`float` are basic, anything else is not (modelled with `Option`). -/
def BasicDataType.fromString (s : String) : Option BasicDataType :=
  if s = "int" then some .Int
  else if s = "float" then some .Float
  else none

/-- `DataType` from `src/src/ast.rs`: basic, struct reference by name, or
pointer to a positioned data type (`Box<PositionRangeContainer<DataType>>`). -/
inductive DataType where
  | Basic (b : BasicDataType)
  | Struct (name : String)
  | Pointer (inner : PositionRangeContainer DataType)
  deriving Repr

/-- `FunctionArgument` from `src/src/ast.rs`: name and data type. -/
structure FunctionArgument where
  name : PositionRangeContainer String
  data_type : PositionRangeContainer DataType
  deriving Repr

/-- `FunctionCall` from `src/src/ast.rs` lines 77-83: the called name and
`args: Vec<FunctionArgument>` (note: argument list of `name: type` pairs,
not expressions, in this version of the code). -/
structure FunctionCall where
  name : PositionRangeContainer String
  args : List FunctionArgument
  deriving Repr

/-- `Expression` from `src/src/ast.rs`. The Rust `BinaryExpression` struct
(boxed lhs, positioned operator, boxed rhs) is inlined as the fields of the
`BinaryExpression` constructor. -/
inductive Expression where
  | BinaryExpression (lhs : Expression)
      (operator : PositionRangeContainer BinaryOperator) (rhs : Expression)
  | FunctionCall (call : FunctionCall)
  | Number (value : PositionRangeContainer Nat)
  | Variable (name : PositionRangeContainer String)
  deriving Repr

/-- `FunctionPrototype` from `src/src/ast.rs`. -/
structure FunctionPrototype where
  name : PositionRangeContainer String
  args : List FunctionArgument
  deriving Repr

/-- `Function` from `src/src/ast.rs`: prototype plus body expression. -/
structure Function where
  prototype : FunctionPrototype
  body : Expression
  deriving Repr

/-- `Statement` from `src/src/ast.rs`. -/
inductive Statement where
  | FunctionPrototype (p : FunctionPrototype)
  | Function (f : Function)
  deriving Repr

/-- `AstNode` from `src/src/ast.rs`. -/
inductive AstNode where
  | Expression (e : Expression)
  | Statement (s : Statement)
  deriving Repr

/-- `Parser::current_position` (`src/src/parser.rs` lines 34-39): the peeked
token position, or `PositionRange::default()` when the stream is exhausted. -/
def current_position (tokens : List Token) : PositionRange :=
  match tokens with
  | tok :: _ => tok.position
  | [] => PositionRange.default

/-- Modelled from the spec: `PositionRangeContainer::try_from2` (not under
`src/`) converts a token into a positioned `BinaryOperator` using the
`TryFrom<TokenKind>` conversion, keeping the token position. -/
def try_from2 (tok : Token) : Except FTLError (PositionRangeContainer BinaryOperator) :=
  match BinaryOperator.tryFromTokenKind tok.data with
  | .ok op => .ok ⟨op, tok.position⟩
  | .error e => .error e

/-- `Parser::parse_operator` (`src/src/parser.rs` lines 104-135). Peeks the
next token: end of stream or `EndOfLine` yields `none`; otherwise the token
must convert to a binary operator or the conversion error is returned. The
token is consumed (when `consume` is set) before the `min_operator`
comparison, and the operator is returned only when strictly greater than
`min_operator`. -/
def parse_operator (min_operator : Option BinaryOperator) (consume : Bool)
    (tokens : List Token) :
    ParseResult (Option (PositionRangeContainer BinaryOperator)) :=
  match tokens with
  | [] => .ok (none, tokens)
  | ⟨.EndOfLine, _⟩ :: _ => .ok (none, tokens)
  | tok :: rest =>
    match try_from2 tok with
    | .error e => .error (.err e)
    | .ok operator =>
      let tokens₁ := if consume then rest else tokens
      match min_operator with
      | none => .ok (some operator, tokens₁)
      | some min_op =>
        if BinaryOperator.gt operator.data min_op then .ok (some operator, tokens₁)
        else .ok (none, tokens₁)

/-- `Parser::parse_number` (`src/src/parser.rs` lines 345-356): converts a
peeked `Number` token; panics when the next token is not a number. -/
def parse_number (tokens : List Token) : ParseResult (PositionRangeContainer Nat) :=
  match tokens with
  | ⟨.Number value, position⟩ :: rest => .ok (⟨value, position⟩, rest)
  | _ => .error (.panicked "parse_number(): Expected number")

/-- `Parser::parse_variable` (`src/src/parser.rs` lines 398-404): asserts the
identifier is non-empty and returns it. -/
def parse_variable (identifier : PositionRangeContainer String)
    (tokens : List Token) : ParseResult (PositionRangeContainer String) :=
  if identifier.data = "" then
    .error (.panicked "assertion failed: identifier must not be empty")
  else
    .ok (identifier, tokens)

/-- `Parser::parse_type` (`src/src/parser.rs` lines 282-325). Identifier
`ptr` recurses for the pointee and builds a `Pointer` whose position spans
from the `ptr` keyword to the end of the inner type; a basic type name gives
`Basic`; any other identifier gives `Struct`; any other token is an
`IllegalToken` error. -/
def parse_type (tokens : List Token) : ParseResult (PositionRangeContainer DataType) :=
  match tokens with
  | ⟨.Identifier type_str, ptr_position⟩ :: rest =>
    if type_str = "ptr" then
      match parse_type rest with
      | .error e => .error e
      | .ok (type_to_point_to, rest₁) =>
        .ok (⟨.Pointer type_to_point_to,
              ⟨ptr_position.line, ptr_position.columnStart,
                type_to_point_to.position.columnEnd⟩⟩, rest₁)
    else
      match BasicDataType.fromString type_str with
      | some basic_data_type => .ok (⟨.Basic basic_data_type, ptr_position⟩, rest)
      | none => .ok (⟨.Struct type_str, ptr_position⟩, rest)
  | tok :: rest =>
    .error (.err ⟨.IllegalToken,
      "parse_type(): Expected argument type, got " ++ describeOptionToken (some tok),
      current_position rest⟩)
  | [] =>
    .error (.err ⟨.IllegalToken,
      "parse_type(): Expected argument type, got None",
      current_position []⟩)

/-- Loop body of `Parser::parse_argument_list` (`src/src/parser.rs` lines
228-274): consume a name, a colon and a type per iteration, continuing only
after a comma. -/
def parse_argument_list_items : Nat → List FunctionArgument → List Token →
    ParseResult (List FunctionArgument)
  | 0, _, _ => .error .fuel
  | fuel + 1, arguments, tokens =>
    match tokens with
    | ⟨.Identifier arg_name, name_position⟩ :: tokens₁ =>
      match tokens₁ with
      | ⟨.Colon, _⟩ :: tokens₂ =>
        match parse_type tokens₂ with
        | .error e => .error e
        | .ok (data_type, tokens₃) =>
          let arguments₁ := arguments ++ [⟨⟨arg_name, name_position⟩, data_type⟩]
          match tokens₃ with
          | ⟨.Comma, _⟩ :: tokens₄ => parse_argument_list_items fuel arguments₁ tokens₄
          | _ => .ok (arguments₁, tokens₃)
      | tok :: rest =>
        .error (.err ⟨.IllegalToken,
          "parse_argument_list(): Expected colon between argument name and type, got "
            ++ describeOptionToken (some tok),
          current_position rest⟩)
      | [] =>
        .error (.err ⟨.IllegalToken,
          "parse_argument_list(): Expected colon between argument name and type, got None",
          current_position []⟩)
    | tok :: rest =>
      .error (.err ⟨.IllegalToken,
        "parse_argument_list(): Expected argument name, got "
          ++ describeOptionToken (some tok),
        current_position rest⟩)
    | [] =>
      .error (.err ⟨.IllegalToken,
        "parse_argument_list(): Expected argument name, got None",
        current_position []⟩)

/-- `Parser::parse_argument_list` (`src/src/parser.rs` lines 216-276): an
argument list ends immediately unless it starts with an identifier. -/
def parse_argument_list (fuel : Nat) (tokens : List Token) :
    ParseResult (List FunctionArgument) :=
  match tokens with
  | ⟨.Identifier _, _⟩ :: _ => parse_argument_list_items fuel [] tokens
  | _ => .ok ([], tokens)

/-- `Parser::parse_function_prototype` (`src/src/parser.rs` lines 146-205):
name, `(`, argument list, `)`. -/
def parse_function_prototype (fuel : Nat) (tokens : List Token) :
    ParseResult FunctionPrototype :=
  match tokens with
  | ⟨.Identifier name, name_position⟩ :: tokens₁ =>
    match tokens₁ with
    | ⟨.OpeningParentheses, _⟩ :: tokens₂ =>
      match parse_argument_list fuel tokens₂ with
      | .error e => .error e
      | .ok (args, tokens₃) =>
        match tokens₃ with
        | ⟨.ClosingParentheses, _⟩ :: tokens₄ =>
          .ok (⟨⟨name, name_position⟩, args⟩, tokens₄)
        | tok :: rest =>
          .error (.err ⟨.IllegalSymbol,
            "parse_function_prototype(): Expected closing parenthesis in function prototype, got "
              ++ describeOptionToken (some tok),
            current_position rest⟩)
        | [] =>
          .error (.err ⟨.IllegalSymbol,
            "parse_function_prototype(): Expected closing parenthesis in function prototype, got None",
            current_position []⟩)
    | tok :: rest =>
      .error (.err ⟨.IllegalSymbol,
        "parse_function_prototype(): Expected opening parenthesis in function prototype, got "
          ++ describeOptionToken (some tok),
        current_position rest⟩)
    | [] =>
      .error (.err ⟨.IllegalSymbol,
        "parse_function_prototype(): Expected opening parenthesis in function prototype, got None",
        current_position []⟩)
  | tok :: rest =>
    .error (.err ⟨.IllegalToken,
      "parse_function_prototype(): Expected identifier for function prototype, got "
        ++ describeOptionToken (some tok),
      current_position rest⟩)
  | [] =>
    .error (.err ⟨.IllegalToken,
      "parse_function_prototype(): Expected identifier for function prototype, got None",
      current_position []⟩)

/-- `Parser::parse_function_call` (`src/src/parser.rs` lines 438-456):
asserts `(`, parses an argument list (of `name: type` pairs; see the TODO in
the source), then asserts `)`. Both assertions are `assert_eq!`, i.e.
panics when they fail. -/
def parse_function_call (fuel : Nat) (name : PositionRangeContainer String)
    (tokens : List Token) : ParseResult FunctionCall :=
  match tokens with
  | ⟨.OpeningParentheses, _⟩ :: tokens₁ =>
    match parse_argument_list fuel tokens₁ with
    | .error e => .error e
    | .ok (args, tokens₂) =>
      match tokens₂ with
      | ⟨.ClosingParentheses, _⟩ :: tokens₃ => .ok (⟨name, args⟩, tokens₃)
      | _ => .error (.panicked
          "assertion failed: parse_function_call() expected Some(ClosingParentheses)")
  | _ => .error (.panicked
      "assertion failed: parse_function_call() expected Some(OpeningParentheses)")

/-- `Parser::parse_identifier_expression` (`src/src/parser.rs` lines
459-485): consume the identifier (panicking when the caller violated the
lookahead precondition), then one-token lookahead: `(` means function call,
anything else means variable. -/
def parse_identifier_expression (fuel : Nat) (tokens : List Token) :
    ParseResult Expression :=
  match tokens with
  | ⟨.Identifier identifier, position⟩ :: tokens₁ =>
    match tokens₁ with
    | ⟨.OpeningParentheses, _⟩ :: _ =>
      match parse_function_call fuel ⟨identifier, position⟩ tokens₁ with
      | .error e => .error e
      | .ok (function_call, tokens₂) => .ok (.FunctionCall function_call, tokens₂)
    | _ =>
      match parse_variable ⟨identifier, position⟩ tokens₁ with
      | .error e => .error e
      | .ok (variable_name, tokens₂) => .ok (.Variable variable_name, tokens₂)
  | _ => .error (.panicked "parse_identifier_expression() called on non-identifier")

mutual

/-- `Parser::parse_binary_expression` (`src/src/parser.rs` lines 44-47):
a primary expression followed by the climbing loop with no minimum
operator. -/
def parse_binary_expression : Nat → List Token → ParseResult Expression
  | 0, _ => .error .fuel
  | fuel + 1, tokens =>
    match parse_primary_expression fuel tokens with
    | .error e => .error e
    | .ok (lhs, tokens₁) => parse_binary_operation_rhs fuel none lhs tokens₁

/-- `Parser::parse_binary_operation_rhs` (`src/src/parser.rs` lines 60-92):
the precedence-climbing loop. Each `loop` iteration of the Rust code is one
recursive call here (with the folded `lhs`); the inner recursive call with
`min_operator = Some(operator)` is the right-operand climb. -/
def parse_binary_operation_rhs : Nat → Option BinaryOperator → Expression →
    List Token → ParseResult Expression
  | 0, _, _, _ => .error .fuel
  | fuel + 1, min_operator, lhs, tokens =>
    match parse_operator min_operator true tokens with
    | .error e => .error e
    | .ok (none, tokens₁) => .ok (lhs, tokens₁)
    | .ok (some operator, tokens₁) =>
      match parse_primary_expression fuel tokens₁ with
      | .error e => .error e
      | .ok (rhs, tokens₂) =>
        match parse_operator min_operator false tokens₂ with
        | .error e => .error e
        | .ok (next_operator, _) =>
          match next_operator with
          | some next_op =>
            if BinaryOperator.gt next_op.data operator.data then
              match parse_binary_operation_rhs fuel (some operator.data) rhs tokens₂ with
              | .error e => .error e
              | .ok (rhs₁, tokens₃) =>
                parse_binary_operation_rhs fuel min_operator
                  (.BinaryExpression lhs operator rhs₁) tokens₃
            else
              parse_binary_operation_rhs fuel min_operator
                (.BinaryExpression lhs operator rhs) tokens₂
          | none =>
            parse_binary_operation_rhs fuel min_operator
              (.BinaryExpression lhs operator rhs) tokens₂

/-- `Parser::parse_primary_expression` (`src/src/parser.rs` lines 507-530):
dispatch on the peeked token: identifier, number, opening parenthesis, or an
`ExpectedExpression` error. -/
def parse_primary_expression : Nat → List Token → ParseResult Expression
  | 0, _ => .error .fuel
  | fuel + 1, tokens =>
    match tokens with
    | ⟨.Identifier _, _⟩ :: _ => parse_identifier_expression fuel tokens
    | ⟨.Number _, _⟩ :: _ =>
      match parse_number tokens with
      | .error e => .error e
      | .ok (number, tokens₁) => .ok (.Number number, tokens₁)
    | ⟨.OpeningParentheses, _⟩ :: _ => parse_parentheses fuel tokens
    | tok :: _ =>
      .error (.err ⟨.ExpectedExpression,
        "parse_primary_expression(): Expected expression, got "
          ++ describeOptionToken (some tok) ++ " instead",
        current_position tokens⟩)
    | [] =>
      .error (.err ⟨.ExpectedExpression,
        "parse_primary_expression(): Expected expression, got None instead",
        current_position []⟩)

/-- `Parser::parse_parentheses` (`src/src/parser.rs` lines 375-395): assert
and consume `(` (a failed assertion is a panic), parse a full binary
expression, then require `)`; the inner expression is returned with no extra
AST node. -/
def parse_parentheses : Nat → List Token → ParseResult Expression
  | 0, _ => .error .fuel
  | fuel + 1, tokens =>
    match tokens with
    | ⟨.OpeningParentheses, _⟩ :: tokens₁ =>
      match parse_binary_expression fuel tokens₁ with
      | .error e => .error e
      | .ok (inner_expression, tokens₂) =>
        match tokens₂ with
        | ⟨.ClosingParentheses, _⟩ :: tokens₃ => .ok (inner_expression, tokens₃)
        | tok :: rest =>
          .error (.err ⟨.IllegalSymbol,
            "parse_parentheses(): Expected closing parenthesis, got "
              ++ describeOptionToken (some tok),
            current_position rest⟩)
        | [] =>
          .error (.err ⟨.IllegalSymbol,
            "parse_parentheses(): Expected closing parenthesis, got None",
            current_position []⟩)
    | _ => .error (.panicked
        "assertion failed: parse_parentheses() expected Some(OpeningParentheses)")

end

/-- `Parser::parse_function_definition` (`src/src/parser.rs` lines 328-337):
assert and consume the `def` keyword, then prototype and body. -/
def parse_function_definition (fuel : Nat) (tokens : List Token) :
    ParseResult Function :=
  match tokens with
  | ⟨.FunctionDefinition, _⟩ :: tokens₁ =>
    match parse_function_prototype fuel tokens₁ with
    | .error e => .error e
    | .ok (prototype, tokens₂) =>
      match parse_binary_expression fuel tokens₂ with
      | .error e => .error e
      | .ok (body, tokens₃) => .ok (⟨prototype, body⟩, tokens₃)
  | _ => .error (.panicked
      "assertion failed: parse_function_definition() expected Some(FunctionDefinition)")

/-- `Parser::parse_extern_function` (`src/src/parser.rs` lines 415-421):
assert and consume `extern`, then a prototype without a body. -/
def parse_extern_function (fuel : Nat) (tokens : List Token) :
    ParseResult FunctionPrototype :=
  match tokens with
  | ⟨.Extern, _⟩ :: tokens₁ => parse_function_prototype fuel tokens₁
  | _ => .error (.panicked
      "assertion failed: parse_extern_function() expected Some(Extern)")

/-- `Parser::parse_top_level_expression` (`src/src/parser.rs` lines 425-435):
parse a binary expression and wrap it in an anonymous function named from the
current line. -/
def parse_top_level_expression (fuel : Nat) (tokens : List Token) :
    ParseResult Function :=
  match parse_binary_expression fuel tokens with
  | .error e => .error e
  | .ok (body, tokens₁) =>
    .ok (⟨⟨⟨"__main_line_" ++ toString (current_position tokens₁).line,
          current_position tokens₁⟩, []⟩, body⟩, tokens₁)

/-- `impl Iterator for Parser` (`src/src/parser.rs` lines 533-569): dispatch
on the peeked token kind; `EndOfLine` is consumed and skipped by
self-recursion; `None` ends the iterator. -/
def parser_next : Nat → List Token → Option (Except Failure (AstNode × List Token))
  | 0, _ => some (.error .fuel)
  | fuel + 1, tokens =>
    match tokens with
    | [] => none
    | ⟨.FunctionDefinition, _⟩ :: _ =>
      some (match parse_function_definition fuel tokens with
        | .ok (def_, tokens₁) => .ok (.Statement (.Function def_), tokens₁)
        | .error e => .error e)
    | ⟨.Extern, _⟩ :: _ =>
      some (match parse_extern_function fuel tokens with
        | .ok (extern_function, tokens₁) =>
          .ok (.Statement (.FunctionPrototype extern_function), tokens₁)
        | .error e => .error e)
    | ⟨.EndOfLine, _⟩ :: rest => parser_next fuel rest
    | _ :: _ =>
      some (match parse_top_level_expression fuel tokens with
        | .ok (expression, tokens₁) => .ok (.Statement (.Function expression), tokens₁)
        | .error e => .error e)

/-! Token builder used by the concrete test inputs: a token on line 1 whose
column range is the single column `column`. -/

/-- A token on line 1 at the given column (used for concrete inputs). -/
def token_at (kind : TokenKind) (column : Nat) : Token :=
  ⟨kind, ⟨1, column, column⟩⟩

/-- Classification of the single-token primary expressions, used to state
the amended precedence claim: a number-literal token parses to the
corresponding `Number` expression, and a non-empty identifier token (not
followed by an opening parenthesis) parses to the corresponding `Variable`
expression; every other token kind is not a single-token primary. -/
def simple_primary (k : TokenKind) (pos : PositionRange) : Option Expression :=
  match k with
  | .Number n => some (.Number ⟨n, pos⟩)
  | .Identifier s => if s = "" then none else some (.Variable ⟨s, pos⟩)
  | _ => none

/-- The positioned `Pointer`-nesting of depth `k` around `Basic(Int)` that
`parse_type` builds for `k` repetitions of the `ptr` keyword (all tokens at
position `pos`): each level's position spans from the keyword's start to the
inner type's end, exactly as computed in `parse_type`. -/
def nested_pointer (pos : PositionRange) : Nat → PositionRangeContainer DataType
  | 0 => ⟨.Basic .Int, pos⟩
  | k + 1 =>
    let inner := nested_pointer pos k
    ⟨.Pointer inner, ⟨pos.line, pos.columnStart, inner.position.columnEnd⟩⟩

/-- Enumeration of the successful cases of the token-to-operator conversion:
only `Plus`, `Minus`, `Star` and `Less` convert. -/
theorem tryFromTokenKind_ok_elim (k : TokenKind) (op : BinaryOperator)
    (h : BinaryOperator.tryFromTokenKind k = .ok op) :
    (k = .Plus ∧ op = .Add) ∨ (k = .Minus ∧ op = .Subtract) ∨
    (k = .Star ∧ op = .Multiply) ∨ (k = .Less ∧ op = .Less) := by
  cases k <;> simp_all [BinaryOperator.tryFromTokenKind]

/-- Enumeration of the single-token primaries: a `Number` token or a
non-empty `Identifier` token, with the expression each parses to. -/
theorem simple_primary_ok_elim (k : TokenKind) (pos : PositionRange)
    (e : Expression) (h : simple_primary k pos = some e) :
    (∃ n, k = .Number n ∧ e = .Number ⟨n, pos⟩) ∨
    (∃ s, k = .Identifier s ∧ ¬ s = "" ∧ e = .Variable ⟨s, pos⟩) := by
  cases k
  case Number n =>
    left
    refine ⟨n, rfl, ?_⟩
    simpa [simple_primary] using h.symm
  case Identifier s =>
    right
    refine ⟨s, rfl, ?_⟩
    by_cases hs : s = ""
    · simp [simple_primary, hs] at h
    · simp [simple_primary, hs] at h
      exact ⟨hs, h.symm⟩
  all_goals simp [simple_primary] at h

/-- `parse_type` on `k` repetitions of the `ptr` keyword followed by `int`
(all tokens at position `pos`) yields the depth-`k` pointer nesting: the
recursion in `parse_type` supports unbounded pointer depth. -/
theorem parse_type_nested (pos : PositionRange) :
    ∀ k : Nat,
      parse_type (List.replicate k ⟨.Identifier "ptr", pos⟩
          ++ [⟨.Identifier "int", pos⟩]) =
        .ok (nested_pointer pos k, []) := by
  intro k
  induction k with
  | zero => rfl
  | succ k ih =>
    rw [List.replicate_succ, List.cons_append]
    simp [parse_type, ih, nested_pointer]

/-- C3: the claim says parsing the token sequence of `(1 + 2) * 3` succeeds
and returns `Multiply(Add(1,2), 3)`. On the code it does not: after the
inner `1 + 2` is parsed, `parse_operator` is asked to inspect the next token
`)`, and the `TryFrom<TokenKind>` conversion returns an `IllegalToken` error
that `parse_binary_operation_rhs` propagates. Even `(40 + 2)`, the valid
example in the doc comment of `parse_parentheses` itself, is rejected the
same way. -/
theorem claim3_parenthesized_expression_rejected :
    parse_binary_expression 32
      [token_at .OpeningParentheses 1, token_at (.Number 1) 2, token_at .Plus 4,
        token_at (.Number 2) 6, token_at .ClosingParentheses 7, token_at .Star 9,
        token_at (.Number 3) 11] =
      .error (.err ⟨.IllegalToken, "Expected binary operator, got ClosingParentheses",
        PositionRange.default⟩)
    ∧ parse_binary_expression 32
      [token_at .OpeningParentheses 1, token_at (.Number 40) 2, token_at .Plus 5,
        token_at (.Number 2) 7, token_at .ClosingParentheses 8] =
      .error (.err ⟨.IllegalToken, "Expected binary operator, got ClosingParentheses",
        PositionRange.default⟩) :=
  ⟨rfl, rfl⟩

/-- C4: the base case of the climbing loop. The exhausted-stream and
statement-terminator cases do return `lhs` unchanged with `Ok`, for every
`min_operator` and every `lhs` (first two conjuncts). But for a
non-operator token such as a closing parenthesis or a comma the claim fails:
`parse_operator` propagates the `IllegalToken` conversion error instead of
signalling the base case (last two conjuncts). -/
theorem claim4_base_case :
    (∀ (fuel : Nat) (min_operator : Option BinaryOperator) (lhs : Expression),
      parse_binary_operation_rhs (fuel + 1) min_operator lhs [] = .ok (lhs, []))
    ∧ (∀ (fuel : Nat) (min_operator : Option BinaryOperator) (lhs : Expression)
        (position : PositionRange) (rest : List Token),
      parse_binary_operation_rhs (fuel + 1) min_operator lhs
          (⟨.EndOfLine, position⟩ :: rest) =
        .ok (lhs, ⟨.EndOfLine, position⟩ :: rest))
    ∧ parse_binary_operation_rhs 32 none (.Number ⟨1, ⟨1, 1, 1⟩⟩)
        [token_at .ClosingParentheses 2] =
      .error (.err ⟨.IllegalToken, "Expected binary operator, got ClosingParentheses",
        PositionRange.default⟩)
    ∧ parse_binary_operation_rhs 32 none (.Number ⟨1, ⟨1, 1, 1⟩⟩)
        [token_at .Comma 2] =
      .error (.err ⟨.IllegalToken, "Expected binary operator, got Comma",
        PositionRange.default⟩) :=
  ⟨fun _ _ _ => rfl, fun _ _ _ _ _ => rfl, rfl, rfl⟩

/-- C5: the claim says that when the next operator is not strictly greater
than `min_precedence` the loop stops without consuming it. On the code,
`parse_operator` consumes the operator token before the precedence
comparison, so the token is dropped: with `min_operator = Add` and input
`+ 4`, the call returns `lhs` but the remaining stream starts at `4`, the
`+` token is gone (first conjunct). Consequently the well-formed input
`1 + 2 * 3 + 4` fails to parse at all: the inner climb drops the second `+`
and the outer loop then sees `4` where an operator is required (second
conjunct). -/
theorem claim5_operator_token_dropped :
    parse_binary_operation_rhs 32 (some .Add) (.Number ⟨1, ⟨1, 1, 1⟩⟩)
        [token_at .Plus 3, token_at (.Number 4) 5] =
      .ok (.Number ⟨1, ⟨1, 1, 1⟩⟩, [token_at (.Number 4) 5])
    ∧ parse_binary_expression 32
        [token_at (.Number 1) 1, token_at .Plus 3, token_at (.Number 2) 5,
          token_at .Star 7, token_at (.Number 3) 9, token_at .Plus 11,
          token_at (.Number 4) 13] =
      .error (.err ⟨.IllegalToken, "Expected binary operator, got Number(4)",
        PositionRange.default⟩) :=
  ⟨rfl, rfl⟩

/-- C6: identifier disambiguation. `foo` parses to a variable and `foo()`
parses to a function call with no arguments (first two conjuncts), but
`foo(1, 2)` does not yield a call with the two argument expressions: the
code parses call arguments with `parse_argument_list` (which accepts
`name: type` pairs and returns an empty list when the next token is not an
identifier; the TODO in `parse_function_call` records this), and then the
`assert_eq!` on the closing parenthesis panics on the `1` (third
conjunct). -/
theorem claim6_call_disambiguation :
    parse_binary_expression 32 [token_at (.Identifier "foo") 1] =
      .ok (.Variable ⟨"foo", ⟨1, 1, 1⟩⟩, [])
    ∧ parse_binary_expression 32
        [token_at (.Identifier "foo") 1, token_at .OpeningParentheses 4,
          token_at .ClosingParentheses 5] =
      .ok (.FunctionCall ⟨⟨"foo", ⟨1, 1, 1⟩⟩, []⟩, [])
    ∧ parse_binary_expression 32
        [token_at (.Identifier "foo") 1, token_at .OpeningParentheses 4,
          token_at (.Number 1) 5, token_at .Comma 6, token_at (.Number 2) 8,
          token_at .ClosingParentheses 9] =
      .error (.panicked
        "assertion failed: parse_function_call() expected Some(ClosingParentheses)") :=
  ⟨rfl, rfl, rfl⟩

/-- C7: the claim says no input token sequence can make a parsing entry
point panic. The public iterator entry `parser_next` panics on the
well-formed-looking user input `foo(1)`: the closing-parenthesis
`assert_eq!` in `parse_function_call` fires because `parse_argument_list`
left the `1` unconsumed, so the assertion failure arises from user input
rather than a violated internal caller precondition. -/
theorem claim7_panic_reachable_from_input :
    parser_next 32
        [token_at (.Identifier "foo") 1, token_at .OpeningParentheses 4,
          token_at (.Number 1) 5, token_at .ClosingParentheses 6] =
      some (.error (.panicked
        "assertion failed: parse_function_call() expected Some(ClosingParentheses)")) :=
  rfl

/-- C9: the claim says parsing `foo(1, 2` (missing closing parenthesis)
fails with an `ExpectedSymbol`/`IllegalSymbol`-class error positioned at or
after the last consumed token. On the code there is no such error value at
all: `parse_argument_list` returns an empty list (the `1` is not an
identifier) and the closing-parenthesis `assert_eq!` in
`parse_function_call` panics, so no error kind or position is ever
reported. -/
theorem claim9_missing_paren_panics :
    parser_next 32
        [token_at (.Identifier "foo") 1, token_at .OpeningParentheses 4,
          token_at (.Number 1) 5, token_at .Comma 6, token_at (.Number 2) 8] =
      some (.error (.panicked
        "assertion failed: parse_function_call() expected Some(ClosingParentheses)")) :=
  rfl

/-- C1 counterexample: the claim covers every `a OP1 b OP2 c` with the six
operator tokens and primary-expression operands. It fails on the code on
two independent grounds. First, `TryFrom<TokenKind>` has no arm for `Slash`
(nor for `Greater`), so `1 / 2 * 3` fails with `IllegalToken` (first three
conjuncts). Second, even over the convertible operators the claim fails for
non-single-token primary operands: `(1 + 2) + 3 * 4`, a claimed input with
a parenthesized primary as `a` and only `+` and `*` as operators, fails
with `IllegalToken` at the closing parenthesis (last conjunct). -/
theorem claim1_counterexample :
    parse_binary_expression 32
        [token_at (.Number 1) 1, token_at .Slash 3, token_at (.Number 2) 5,
          token_at .Star 7, token_at (.Number 3) 9] =
      .error (.err ⟨.IllegalToken, "Expected binary operator, got Slash",
        PositionRange.default⟩)
    ∧ BinaryOperator.tryFromTokenKind .Slash =
      .error ⟨.IllegalToken, "Expected binary operator, got Slash",
        PositionRange.default⟩
    ∧ BinaryOperator.tryFromTokenKind .Greater =
      .error ⟨.IllegalToken, "Expected binary operator, got Greater",
        PositionRange.default⟩
    ∧ parse_binary_expression 32
        [token_at .OpeningParentheses 1, token_at (.Number 1) 2, token_at .Plus 4,
          token_at (.Number 2) 6, token_at .ClosingParentheses 7, token_at .Plus 9,
          token_at (.Number 3) 11, token_at .Star 13, token_at (.Number 4) 15] =
      .error (.err ⟨.IllegalToken, "Expected binary operator, got ClosingParentheses",
        PositionRange.default⟩) :=
  ⟨rfl, rfl, rfl, rfl⟩

set_option maxHeartbeats 1000000 in
/-- C1 amended: over the four operator tokens the conversion actually
accepts (`+`, `-`, `*`, `<`), the grouping property holds for the primary
operands the code can parse at all, and fails for the rest.
First conjunct: for arbitrary single-token primary operands (number
literals and non-empty variables, arbitrary positions), `a OP1 b OP2 c`
parses into the tree grouping the higher-precedence operator's operands
together, using comparison (10) < additive (20) < multiplicative (30), with
a left fold at equal precedence — so `1 + 2 * 3` gives
`Add(1, Multiply(2, 3))` and never `Multiply(Add(1, 2), 3)`, and
`x + y * z` likewise. Second conjunct: an empty-argument call such as
`f()` also works as an operand, with the same grouping. Third and fourth
conjuncts: the conversion fails for the `Slash` and `Greater` tokens.
Fifth conjunct: a parenthesized operand such as `(2 + 3)` in
`(2 + 3) + 4 * 5` makes the parse fail with `IllegalToken` at the closing
parenthesis (the defect recorded under C3). Sixth conjunct: a call operand
with an argument, as in `foo(1) + 2 * 3`, makes the parse panic (the defect
recorded under C6). -/
theorem claim1_amended :
    (∀ (k1 k2 : TokenKind) (op1 op2 : BinaryOperator),
      BinaryOperator.tryFromTokenKind k1 = .ok op1 →
      BinaryOperator.tryFromTokenKind k2 = .ok op2 →
      ∀ (ka kb kc : TokenKind) (p1 p2 p3 p4 p5 : PositionRange)
        (ea eb ec : Expression),
      simple_primary ka p1 = some ea → simple_primary kb p3 = some eb →
      simple_primary kc p5 = some ec →
      parse_binary_expression 32
          [⟨ka, p1⟩, ⟨k1, p2⟩, ⟨kb, p3⟩, ⟨k2, p4⟩, ⟨kc, p5⟩] =
        .ok ((if op1.precedence < op2.precedence then
            Expression.BinaryExpression ea ⟨op1, p2⟩
              (.BinaryExpression eb ⟨op2, p4⟩ ec)
          else
            Expression.BinaryExpression (.BinaryExpression ea ⟨op1, p2⟩ eb)
              ⟨op2, p4⟩ ec), []))
    ∧ (∀ (k1 k2 : TokenKind) (op1 op2 : BinaryOperator),
      BinaryOperator.tryFromTokenKind k1 = .ok op1 →
      BinaryOperator.tryFromTokenKind k2 = .ok op2 →
      ∀ (s : String) (a b : Nat) (p0 q1 q2 p2 p3 p4 p5 : PositionRange),
      parse_binary_expression 32
          [⟨.Identifier s, p0⟩, ⟨.OpeningParentheses, q1⟩,
            ⟨.ClosingParentheses, q2⟩, ⟨k1, p2⟩, ⟨.Number a, p3⟩, ⟨k2, p4⟩,
            ⟨.Number b, p5⟩] =
        .ok ((if op1.precedence < op2.precedence then
            Expression.BinaryExpression (.FunctionCall ⟨⟨s, p0⟩, []⟩) ⟨op1, p2⟩
              (.BinaryExpression (.Number ⟨a, p3⟩) ⟨op2, p4⟩ (.Number ⟨b, p5⟩))
          else
            Expression.BinaryExpression
              (.BinaryExpression (.FunctionCall ⟨⟨s, p0⟩, []⟩) ⟨op1, p2⟩
                (.Number ⟨a, p3⟩))
              ⟨op2, p4⟩ (.Number ⟨b, p5⟩)), []))
    ∧ BinaryOperator.tryFromTokenKind .Slash =
      .error ⟨.IllegalToken, "Expected binary operator, got Slash",
        PositionRange.default⟩
    ∧ BinaryOperator.tryFromTokenKind .Greater =
      .error ⟨.IllegalToken, "Expected binary operator, got Greater",
        PositionRange.default⟩
    ∧ parse_binary_expression 32
        [token_at .OpeningParentheses 1, token_at (.Number 2) 2, token_at .Plus 4,
          token_at (.Number 3) 6, token_at .ClosingParentheses 7, token_at .Plus 9,
          token_at (.Number 4) 11, token_at .Star 13, token_at (.Number 5) 15] =
      .error (.err ⟨.IllegalToken, "Expected binary operator, got ClosingParentheses",
        PositionRange.default⟩)
    ∧ parse_binary_expression 32
        [token_at (.Identifier "foo") 1, token_at .OpeningParentheses 4,
          token_at (.Number 1) 5, token_at .ClosingParentheses 6, token_at .Plus 8,
          token_at (.Number 2) 10, token_at .Star 12, token_at (.Number 3) 14] =
      .error (.panicked
        "assertion failed: parse_function_call() expected Some(ClosingParentheses)") := by
  refine ⟨?_, ?_, rfl, rfl, rfl, rfl⟩
  · intro k1 k2 op1 op2 h1 h2 ka kb kc p1 p2 p3 p4 p5 ea eb ec ha hb hc
    rcases tryFromTokenKind_ok_elim k1 op1 h1 with
        ⟨rfl, rfl⟩ | ⟨rfl, rfl⟩ | ⟨rfl, rfl⟩ | ⟨rfl, rfl⟩ <;>
      rcases tryFromTokenKind_ok_elim k2 op2 h2 with
        ⟨rfl, rfl⟩ | ⟨rfl, rfl⟩ | ⟨rfl, rfl⟩ | ⟨rfl, rfl⟩ <;>
      rcases simple_primary_ok_elim ka p1 ea ha with
        ⟨n₁, rfl, rfl⟩ | ⟨s₁, rfl, hs₁, rfl⟩ <;>
      rcases simple_primary_ok_elim kb p3 eb hb with
        ⟨n₂, rfl, rfl⟩ | ⟨s₂, rfl, hs₂, rfl⟩ <;>
      rcases simple_primary_ok_elim kc p5 ec hc with
        ⟨n₃, rfl, rfl⟩ | ⟨s₃, rfl, hs₃, rfl⟩ <;>
      simp_all [parse_binary_expression, parse_binary_operation_rhs,
        parse_primary_expression, parse_identifier_expression, parse_variable,
        parse_number, parse_operator, try_from2, BinaryOperator.tryFromTokenKind,
        BinaryOperator.gt, BinaryOperator.precedence]
  · intro k1 k2 op1 op2 h1 h2 s a b p0 q1 q2 p2 p3 p4 p5
    rcases tryFromTokenKind_ok_elim k1 op1 h1 with
        ⟨rfl, rfl⟩ | ⟨rfl, rfl⟩ | ⟨rfl, rfl⟩ | ⟨rfl, rfl⟩ <;>
      rcases tryFromTokenKind_ok_elim k2 op2 h2 with
        ⟨rfl, rfl⟩ | ⟨rfl, rfl⟩ | ⟨rfl, rfl⟩ | ⟨rfl, rfl⟩ <;>
      simp_all [parse_binary_expression, parse_binary_operation_rhs,
        parse_primary_expression, parse_identifier_expression,
        parse_function_call, parse_argument_list, parse_number, parse_operator,
        try_from2, BinaryOperator.tryFromTokenKind, BinaryOperator.gt,
        BinaryOperator.precedence]

/-- C1 witness: the amended theorem applied at concrete inputs. The first
general conjunct at `x + 2 * z` (a variable, a number and a variable as
operands) yields the right-grouped tree; the second at `f() + 2 * 3`
(empty-argument call operand) yields the right-grouped tree with the call
as left operand. -/
theorem claim1_witness :
    BinaryOperator.tryFromTokenKind .Plus = .ok .Add
    ∧ BinaryOperator.tryFromTokenKind .Star = .ok .Multiply
    ∧ simple_primary (.Identifier "x") ⟨1, 1, 1⟩ =
      some (.Variable ⟨"x", ⟨1, 1, 1⟩⟩)
    ∧ simple_primary (.Number 2) ⟨1, 5, 5⟩ = some (.Number ⟨2, ⟨1, 5, 5⟩⟩)
    ∧ simple_primary (.Identifier "z") ⟨1, 9, 9⟩ =
      some (.Variable ⟨"z", ⟨1, 9, 9⟩⟩)
    ∧ parse_binary_expression 32
        [token_at (.Identifier "x") 1, token_at .Plus 3, token_at (.Number 2) 5,
          token_at .Star 7, token_at (.Identifier "z") 9] =
      .ok (.BinaryExpression (.Variable ⟨"x", ⟨1, 1, 1⟩⟩) ⟨.Add, ⟨1, 3, 3⟩⟩
            (.BinaryExpression (.Number ⟨2, ⟨1, 5, 5⟩⟩) ⟨.Multiply, ⟨1, 7, 7⟩⟩
              (.Variable ⟨"z", ⟨1, 9, 9⟩⟩)), [])
    ∧ parse_binary_expression 32
        [token_at (.Identifier "f") 1, token_at .OpeningParentheses 2,
          token_at .ClosingParentheses 3, token_at .Plus 5, token_at (.Number 2) 7,
          token_at .Star 9, token_at (.Number 3) 11] =
      .ok (.BinaryExpression (.FunctionCall ⟨⟨"f", ⟨1, 1, 1⟩⟩, []⟩) ⟨.Add, ⟨1, 5, 5⟩⟩
            (.BinaryExpression (.Number ⟨2, ⟨1, 7, 7⟩⟩) ⟨.Multiply, ⟨1, 9, 9⟩⟩
              (.Number ⟨3, ⟨1, 11, 11⟩⟩)), []) :=
  ⟨rfl, rfl, rfl, rfl, rfl,
    by
      simpa using claim1_amended.1 .Plus .Star .Add .Multiply rfl rfl
        (.Identifier "x") (.Number 2) (.Identifier "z")
        ⟨1, 1, 1⟩ ⟨1, 3, 3⟩ ⟨1, 5, 5⟩ ⟨1, 7, 7⟩ ⟨1, 9, 9⟩
        (.Variable ⟨"x", ⟨1, 1, 1⟩⟩) (.Number ⟨2, ⟨1, 5, 5⟩⟩)
        (.Variable ⟨"z", ⟨1, 9, 9⟩⟩) rfl rfl rfl,
    by
      simpa using claim1_amended.2.1 .Plus .Star .Add .Multiply rfl rfl
        "f" 2 3 ⟨1, 1, 1⟩ ⟨1, 2, 2⟩ ⟨1, 3, 3⟩ ⟨1, 5, 5⟩ ⟨1, 7, 7⟩ ⟨1, 9, 9⟩
        ⟨1, 11, 11⟩⟩

/-- C2: at equal precedence the climbing loop folds to the left: for any
two convertible operator tokens of equal precedence and any number
operands, `a OP1 b OP2 c` parses to `(a OP1 b) OP2 c`, because the
strict-greater-than test blocks the right-recursion. -/
theorem claim2_left_associative (k1 k2 : TokenKind) (op1 op2 : BinaryOperator)
    (h1 : BinaryOperator.tryFromTokenKind k1 = .ok op1)
    (h2 : BinaryOperator.tryFromTokenKind k2 = .ok op2)
    (hprec : op1.precedence = op2.precedence) (a b c : Nat) :
    parse_binary_expression 32
        [token_at (.Number a) 1, token_at k1 3, token_at (.Number b) 5,
          token_at k2 7, token_at (.Number c) 9] =
      .ok (.BinaryExpression
            (.BinaryExpression (.Number ⟨a, ⟨1, 1, 1⟩⟩) ⟨op1, ⟨1, 3, 3⟩⟩
              (.Number ⟨b, ⟨1, 5, 5⟩⟩))
            ⟨op2, ⟨1, 7, 7⟩⟩ (.Number ⟨c, ⟨1, 9, 9⟩⟩), []) := by
  rcases tryFromTokenKind_ok_elim k1 op1 h1 with
      ⟨rfl, rfl⟩ | ⟨rfl, rfl⟩ | ⟨rfl, rfl⟩ | ⟨rfl, rfl⟩ <;>
    rcases tryFromTokenKind_ok_elim k2 op2 h2 with
      ⟨rfl, rfl⟩ | ⟨rfl, rfl⟩ | ⟨rfl, rfl⟩ | ⟨rfl, rfl⟩ <;>
    first
      | rfl
      | simp [BinaryOperator.precedence] at hprec

/-- C2 witness: the left-associativity theorem at the concrete input
`1 - 2 - 3`, yielding `Subtract(Subtract(1, 2), 3)`. -/
theorem claim2_witness :
    BinaryOperator.tryFromTokenKind .Minus = .ok .Subtract
    ∧ BinaryOperator.precedence .Subtract = BinaryOperator.precedence .Subtract
    ∧ parse_binary_expression 32
        [token_at (.Number 1) 1, token_at .Minus 3, token_at (.Number 2) 5,
          token_at .Minus 7, token_at (.Number 3) 9] =
      .ok (.BinaryExpression
            (.BinaryExpression (.Number ⟨1, ⟨1, 1, 1⟩⟩) ⟨.Subtract, ⟨1, 3, 3⟩⟩
              (.Number ⟨2, ⟨1, 5, 5⟩⟩))
            ⟨.Subtract, ⟨1, 7, 7⟩⟩ (.Number ⟨3, ⟨1, 9, 9⟩⟩), []) :=
  ⟨rfl, rfl, claim2_left_associative .Minus .Minus .Subtract .Subtract rfl rfl rfl 1 2 3⟩

/-- C8: type parsing. `ptr ptr int` parses (for arbitrary token positions)
to `Pointer(Pointer(Basic(Int)))` and the outer position range runs from the
first `ptr` keyword through the end of the inner type; an identifier that is
neither `int` nor `float` (nor the `ptr` keyword) yields `Struct(name)`; a
non-identifier token yields an `IllegalToken` syntax error; and the pointer
nesting is unbounded: `k` repetitions of the `ptr` keyword around `int`
parse to the depth-`k` `Pointer` nesting for every `k` (last conjunct). -/
theorem claim8_type_parsing :
    (∀ p1 p2 p3 : PositionRange,
      parse_type [⟨.Identifier "ptr", p1⟩, ⟨.Identifier "ptr", p2⟩,
          ⟨.Identifier "int", p3⟩] =
        .ok (⟨.Pointer ⟨.Pointer ⟨.Basic .Int, p3⟩,
                ⟨p2.line, p2.columnStart, p3.columnEnd⟩⟩,
              ⟨p1.line, p1.columnStart, p3.columnEnd⟩⟩, []))
    ∧ (∀ (s : String) (position : PositionRange) (rest : List Token),
        s ≠ "int" → s ≠ "float" → s ≠ "ptr" →
        parse_type (⟨.Identifier s, position⟩ :: rest) =
          .ok (⟨.Struct s, position⟩, rest))
    ∧ (∀ (tok : Token) (rest : List Token), (∀ s, tok.data ≠ .Identifier s) →
        parse_type (tok :: rest) =
          .error (.err ⟨.IllegalToken,
            "parse_type(): Expected argument type, got "
              ++ describeOptionToken (some tok),
            current_position rest⟩))
    ∧ (∀ (pos : PositionRange) (k : Nat),
        parse_type (List.replicate k ⟨.Identifier "ptr", pos⟩
            ++ [⟨.Identifier "int", pos⟩]) =
          .ok (nested_pointer pos k, [])) := by
  refine ⟨fun p1 p2 p3 => rfl, ?_, ?_, fun pos k => parse_type_nested pos k⟩
  · intro s position rest h1 h2 h3
    simp [parse_type, BasicDataType.fromString, h1, h2, h3]
  · intro tok rest h
    rcases tok with ⟨kind, position⟩
    cases kind
    case Identifier s => exact absurd rfl (h s)
    all_goals rfl

/-- C8 witness: the type-parsing theorem applied at `ptr ptr int` on three
concrete positions, at the struct name `Person`, at the non-identifier
token `Number(1)`, and at depth 3 (`ptr ptr ptr int`). -/
theorem claim8_witness :
    parse_type [⟨.Identifier "ptr", ⟨1, 1, 3⟩⟩, ⟨.Identifier "ptr", ⟨1, 5, 7⟩⟩,
        ⟨.Identifier "int", ⟨1, 9, 11⟩⟩] =
      .ok (⟨.Pointer ⟨.Pointer ⟨.Basic .Int, ⟨1, 9, 11⟩⟩, ⟨1, 5, 11⟩⟩,
            ⟨1, 1, 11⟩⟩, [])
    ∧ parse_type [⟨.Identifier "Person", ⟨1, 1, 6⟩⟩] =
      .ok (⟨.Struct "Person", ⟨1, 1, 6⟩⟩, [])
    ∧ parse_type [token_at (.Number 1) 1] =
      .error (.err ⟨.IllegalToken,
        "parse_type(): Expected argument type, got Some(Number(1))",
        PositionRange.default⟩)
    ∧ parse_type (List.replicate 3 (⟨.Identifier "ptr", ⟨1, 1, 3⟩⟩ : Token)
        ++ [⟨.Identifier "int", ⟨1, 1, 3⟩⟩]) =
      .ok (nested_pointer ⟨1, 1, 3⟩ 3, []) := by
  refine ⟨?_, ?_, ?_, ?_⟩
  · exact claim8_type_parsing.1 ⟨1, 1, 3⟩ ⟨1, 5, 7⟩ ⟨1, 9, 11⟩
  · exact claim8_type_parsing.2.1 "Person" ⟨1, 1, 6⟩ []
      (by decide) (by decide) (by decide)
  · exact claim8_type_parsing.2.2.1 (token_at (.Number 1) 1) []
      (fun s h => by cases h)
  · exact claim8_type_parsing.2.2.2 ⟨1, 1, 3⟩ 3

/-! Termination infrastructure: the fuel parameter of the embedding only
stands in for the Rust loops and recursion, and the lemmas below show that
fuel linear in the number of remaining tokens never runs out, because every
loop iteration and recursive call of the source consumes at least one
token. -/

/-- `parse_operator` never advances the stream past its input. -/
theorem parse_operator_length {m : Option BinaryOperator} {c : Bool}
    {ts ts' : List Token} {o : Option (PositionRangeContainer BinaryOperator)}
    (h : parse_operator m c ts = .ok (o, ts')) : ts'.length ≤ ts.length := by
  rcases ts with _ | ⟨⟨kind, pos⟩, rest⟩
  · simp_all [parse_operator]
  · cases m <;> cases c <;> cases kind <;>
      simp_all [parse_operator, try_from2, BinaryOperator.tryFromTokenKind]
    all_goals try split at h
    all_goals try obtain ⟨-, rfl⟩ := h
    all_goals simp_all

/-- When `parse_operator` consumes and returns an operator, it consumed
exactly the operator token. -/
theorem parse_operator_consume_some {m : Option BinaryOperator}
    {ts ts' : List Token} {op : PositionRangeContainer BinaryOperator}
    (h : parse_operator m true ts = .ok (some op, ts')) :
    ts'.length + 1 = ts.length := by
  rcases ts with _ | ⟨⟨kind, pos⟩, rest⟩
  · simp_all [parse_operator]
  · cases m <;> cases kind <;>
      simp_all [parse_operator, try_from2, BinaryOperator.tryFromTokenKind]
    all_goals try split at h
    all_goals try obtain ⟨-, rfl⟩ := h
    all_goals simp_all

/-- `parse_operator` cannot run out of fuel (it has no loop). -/
theorem parse_operator_ne_fuel (m : Option BinaryOperator) (c : Bool)
    (ts : List Token) : parse_operator m c ts ≠ .error .fuel := by
  rcases ts with _ | ⟨⟨kind, pos⟩, rest⟩
  · simp [parse_operator]
  · cases m <;> cases c <;> cases kind <;>
      simp [parse_operator, try_from2, BinaryOperator.tryFromTokenKind] <;>
      split <;> simp

/-- `parse_number` consumes at most its input. -/
theorem parse_number_length {ts ts' : List Token}
    {n : PositionRangeContainer Nat} (h : parse_number ts = .ok (n, ts')) :
    ts'.length < ts.length := by
  unfold parse_number at h
  split at h <;> simp_all

/-- `parse_type` cannot run out of fuel (its recursion is structural). -/
theorem parse_type_ne_fuel : ∀ ts : List Token, parse_type ts ≠ .error .fuel := by
  intro ts
  induction ts using parse_type.induct with
  | case1 ptr_position rest e herr ih =>
    simp [parse_type, herr]
    intro hcontra
    apply ih
    rw [herr]
    simpa using hcontra
  | case2 ptr_position rest type_to_point_to rest₁ heq ih =>
    simp [parse_type, heq]
  | case3 type_str ptr_position rest hne basic_data_type hbasic =>
    simp [parse_type, hne, hbasic]
  | case4 type_str ptr_position rest hne hbasic =>
    simp [parse_type, hne, hbasic]
  | case5 tok rest hnid =>
    rcases tok with ⟨kind, pos⟩
    cases kind
    case Identifier s => exact absurd rfl (hnid s pos)
    all_goals simp [parse_type]
  | case6 => simp [parse_type]

/-- Each `parse_type` call consumes at least one token: the recursion in
the source is on a strictly shrinking stream. -/
theorem parse_type_length :
    ∀ (ts : List Token) (r : PositionRangeContainer DataType)
      (rest : List Token), parse_type ts = .ok (r, rest) →
      rest.length < ts.length := by
  intro ts
  induction ts using parse_type.induct with
  | case1 ptr_position rest e herr ih =>
    intro r rest₂ h
    simp [parse_type, herr] at h
  | case2 ptr_position rest type_to_point_to rest₁ heq ih =>
    intro r rest₂ h
    simp only [parse_type, if_pos rfl, heq, Except.ok.injEq, Prod.mk.injEq] at h
    obtain ⟨-, rfl⟩ := h
    have := ih _ _ heq
    simp only [List.length_cons]
    omega
  | case3 type_str ptr_position rest hne basic_data_type hbasic =>
    intro r rest₂ h
    simp only [parse_type, if_neg hne, hbasic, Except.ok.injEq, Prod.mk.injEq] at h
    obtain ⟨-, rfl⟩ := h
    simp
  | case4 type_str ptr_position rest hne hbasic =>
    intro r rest₂ h
    simp only [parse_type, if_neg hne, hbasic, Except.ok.injEq, Prod.mk.injEq] at h
    obtain ⟨-, rfl⟩ := h
    simp
  | case5 tok rest hnid =>
    intro r rest₂ h
    rcases tok with ⟨kind, pos⟩
    cases kind
    case Identifier s => exact absurd rfl (hnid s pos)
    all_goals simp [parse_type] at h
  | case6 =>
    intro r rest₂ h
    simp [parse_type] at h

/-- Each iteration of the argument-list loop consumes at least the name,
the colon and the type, so the remaining stream never grows. -/
theorem parse_argument_list_items_length :
    ∀ (fuel : Nat) (acc : List FunctionArgument) (ts : List Token)
      (r : List FunctionArgument) (rest : List Token),
      parse_argument_list_items fuel acc ts = .ok (r, rest) →
      rest.length ≤ ts.length := by
  intro fuel acc ts
  induction fuel, acc, ts using parse_argument_list_items.induct with
  | case1 acc ts =>
    intro r rest h
    simp [parse_argument_list_items] at h
  | case2 f acc s p1 p2 ts₂ e herr =>
    intro r rest h
    simp [parse_argument_list_items, herr] at h
  | case3 f acc s p1 p2 ts₂ tt args₁ p3 ts₄ heq ih =>
    intro r rest h
    simp only [parse_argument_list_items, heq] at h
    have hrec := ih _ _ h
    have hlen := parse_type_length _ _ _ heq
    simp only [List.length_cons] at hrec hlen ⊢
    omega
  | case4 f acc s p1 p2 ts₂ tt rest₁ heq hnc =>
    intro r rest h
    simp only [parse_argument_list_items, heq] at h
    have hlen := parse_type_length _ _ _ heq
    rcases rest₁ with _ | ⟨⟨kind₃, pos₃⟩, ts₄⟩
    · simp only [Except.ok.injEq, Prod.mk.injEq] at h
      obtain ⟨-, rfl⟩ := h
      simp
    cases kind₃
    case Comma => exact absurd rfl (hnc pos₃ ts₄)
    all_goals
      (simp only [Except.ok.injEq, Prod.mk.injEq] at h
       obtain ⟨-, rfl⟩ := h
       simp only [List.length_cons] at hlen ⊢
       omega)
  | case5 f acc s p1 tok rest₀ hncolon =>
    intro r rest h
    rcases tok with ⟨kind₂, pos₂⟩
    cases kind₂
    case Colon => exact absurd rfl (hncolon pos₂)
    all_goals simp [parse_argument_list_items] at h
  | case6 f acc s p1 =>
    intro r rest h
    simp [parse_argument_list_items] at h
  | case7 f acc tok rest₀ hnid =>
    intro r rest h
    rcases tok with ⟨kind, pos⟩
    cases kind
    case Identifier s => exact absurd rfl (hnid s pos)
    all_goals simp [parse_argument_list_items] at h
  | case8 f acc =>
    intro r rest h
    simp [parse_argument_list_items] at h

/-- Fuel one more than the remaining token count suffices for the
argument-list loop. -/
theorem parse_argument_list_items_ne_fuel :
    ∀ (fuel : Nat) (acc : List FunctionArgument) (ts : List Token),
      ts.length + 1 ≤ fuel →
      parse_argument_list_items fuel acc ts ≠ .error .fuel := by
  intro fuel acc ts
  induction fuel, acc, ts using parse_argument_list_items.induct with
  | case1 acc ts =>
    intro hle
    omega
  | case2 f acc s p1 p2 ts₂ e herr =>
    intro hle
    simp only [parse_argument_list_items, herr]
    intro hcontra
    apply parse_type_ne_fuel ts₂
    rw [herr]
    simpa using hcontra
  | case3 f acc s p1 p2 ts₂ tt args₁ p3 ts₄ heq ih =>
    intro hle
    simp only [parse_argument_list_items, heq]
    have hlen := parse_type_length _ _ _ heq
    apply ih
    simp only [List.length_cons] at hlen hle ⊢
    omega
  | case4 f acc s p1 p2 ts₂ tt rest₁ heq hnc =>
    intro hle
    simp only [parse_argument_list_items, heq]
    rcases rest₁ with _ | ⟨⟨kind₃, pos₃⟩, ts₄⟩
    · simp
    cases kind₃
    case Comma => exact absurd rfl (hnc pos₃ ts₄)
    all_goals simp
  | case5 f acc s p1 tok rest₀ hncolon =>
    intro hle
    rcases tok with ⟨kind₂, pos₂⟩
    cases kind₂
    case Colon => exact absurd rfl (hncolon pos₂)
    all_goals simp [parse_argument_list_items]
  | case6 f acc s p1 =>
    intro hle
    simp [parse_argument_list_items]
  | case7 f acc tok rest₀ hnid =>
    intro hle
    rcases tok with ⟨kind, pos⟩
    cases kind
    case Identifier s => exact absurd rfl (hnid s pos)
    all_goals simp [parse_argument_list_items]
  | case8 f acc =>
    intro hle
    simp [parse_argument_list_items]

/-- `parse_number` cannot run out of fuel. -/
theorem parse_number_ne_fuel (ts : List Token) :
    parse_number ts ≠ .error .fuel := by
  unfold parse_number
  split <;> simp

/-- `parse_variable` leaves the stream untouched. -/
theorem parse_variable_length {identifier : PositionRangeContainer String}
    {ts ts' : List Token} {v : PositionRangeContainer String}
    (h : parse_variable identifier ts = .ok (v, ts')) : ts' = ts := by
  unfold parse_variable at h
  split at h <;> simp_all

/-- `parse_variable` cannot run out of fuel. -/
theorem parse_variable_ne_fuel (identifier : PositionRangeContainer String)
    (ts : List Token) : parse_variable identifier ts ≠ .error .fuel := by
  unfold parse_variable
  split <;> simp

/-- `parse_argument_list` never advances the stream past its input. -/
theorem parse_argument_list_length {fuel : Nat} {ts rest : List Token}
    {r : List FunctionArgument}
    (h : parse_argument_list fuel ts = .ok (r, rest)) :
    rest.length ≤ ts.length := by
  unfold parse_argument_list at h
  split at h
  · exact parse_argument_list_items_length _ _ _ _ _ h
  · simp_all

/-- Fuel one more than the remaining token count suffices for
`parse_argument_list`. -/
theorem parse_argument_list_ne_fuel {fuel : Nat} {ts : List Token}
    (hle : ts.length + 1 ≤ fuel) :
    parse_argument_list fuel ts ≠ .error .fuel := by
  unfold parse_argument_list
  split
  · exact parse_argument_list_items_ne_fuel _ _ _ hle
  · simp

/-- `parse_function_call` never advances the stream past its input. -/
theorem parse_function_call_length {fuel : Nat}
    {name : PositionRangeContainer String} {ts ts' : List Token}
    {fc : FunctionCall} (h : parse_function_call fuel name ts = .ok (fc, ts')) :
    ts'.length ≤ ts.length := by
  unfold parse_function_call at h
  split at h
  · split at h
    · cases h
    · rename_i args tokens₂ hargs
      split at h
      · rename_i tokens₃ _
        simp only [Except.ok.injEq, Prod.mk.injEq] at h
        obtain ⟨-, rfl⟩ := h
        have := parse_argument_list_length hargs
        simp_all
        omega
      · cases h
  · cases h

/-- Fuel one more than the remaining token count suffices for
`parse_function_call`. -/
theorem parse_function_call_ne_fuel {fuel : Nat}
    {name : PositionRangeContainer String} {ts : List Token}
    (hle : ts.length + 1 ≤ fuel) :
    parse_function_call fuel name ts ≠ .error .fuel := by
  unfold parse_function_call
  split
  · split
    · rename_i tokens₁ e hargs
      intro hcontra
      have hfe : e = Failure.fuel := by simpa using hcontra
      subst hfe
      refine parse_argument_list_ne_fuel ?_ hargs
      simp_all
      omega
    · split <;> simp
  · simp

/-- `parse_identifier_expression` consumes at least the identifier token. -/
theorem parse_identifier_expression_length {fuel : Nat} {ts ts' : List Token}
    {e : Expression} (h : parse_identifier_expression fuel ts = .ok (e, ts')) :
    ts'.length < ts.length := by
  unfold parse_identifier_expression at h
  split at h
  · split at h
    · split at h
      · cases h
      · rename_i fc tokens₂ hcall
        simp only [Except.ok.injEq, Prod.mk.injEq] at h
        obtain ⟨-, rfl⟩ := h
        have := parse_function_call_length hcall
        simp_all
        omega
    · split at h
      · cases h
      · rename_i v tokens₂ hvar
        simp only [Except.ok.injEq, Prod.mk.injEq] at h
        obtain ⟨-, rfl⟩ := h
        have := parse_variable_length hvar
        simp_all
  · cases h

/-- Fuel one more than the remaining token count suffices for
`parse_identifier_expression`. -/
theorem parse_identifier_expression_ne_fuel {fuel : Nat} {ts : List Token}
    (hle : ts.length + 1 ≤ fuel) :
    parse_identifier_expression fuel ts ≠ .error .fuel := by
  unfold parse_identifier_expression
  split
  · split
    · split
      · rename_i e hcall
        intro hcontra
        have hfe : e = Failure.fuel := by simpa using hcontra
        subst hfe
        refine parse_function_call_ne_fuel ?_ hcall
        simp_all
        omega
      · simp
    · split
      · rename_i e hvar
        intro hcontra
        have hfe : e = Failure.fuel := by simpa using hcontra
        subst hfe
        exact parse_variable_ne_fuel _ _ hvar
      · simp
  · simp

/-- `parse_function_prototype` never advances the stream past its input. -/
theorem parse_function_prototype_length {fuel : Nat} {ts ts' : List Token}
    {p : FunctionPrototype}
    (h : parse_function_prototype fuel ts = .ok (p, ts')) :
    ts'.length ≤ ts.length := by
  unfold parse_function_prototype at h
  split at h
  · split at h
    · split at h
      · cases h
      · rename_i args tokens₃ hargs
        split at h
        · simp only [Except.ok.injEq, Prod.mk.injEq] at h
          obtain ⟨-, rfl⟩ := h
          have := parse_argument_list_length hargs
          simp_all
          omega
        · cases h
        · cases h
    · cases h
    · cases h
  · cases h
  · cases h

/-- Fuel one more than the remaining token count suffices for
`parse_function_prototype`. -/
theorem parse_function_prototype_ne_fuel {fuel : Nat} {ts : List Token}
    (hle : ts.length + 1 ≤ fuel) :
    parse_function_prototype fuel ts ≠ .error .fuel := by
  unfold parse_function_prototype
  split
  · split
    · split
      · rename_i e hargs
        intro hcontra
        have hfe : e = Failure.fuel := by simpa using hcontra
        subst hfe
        refine parse_argument_list_ne_fuel ?_ hargs
        simp_all
        omega
      · split <;> simp
    · simp
    · simp
  · simp
  · simp

/-- Combined fuel-sufficiency and stream-consumption invariant for the four
mutually recursive expression parsers: fuel linear in the remaining token
count never runs out, because the climbing loop and the parenthesis
recursion consume at least one token before each recursive step; and a
successful primary or binary expression consumes at least one token. -/
theorem expression_fuel_invariant : ∀ fuel : Nat,
    (∀ ts : List Token, 3 * ts.length + 4 ≤ fuel →
      parse_binary_expression fuel ts ≠ .error .fuel)
    ∧ (∀ (ts : List Token) (e : Expression) (ts' : List Token),
        parse_binary_expression fuel ts = .ok (e, ts') → ts'.length < ts.length)
    ∧ (∀ (m : Option BinaryOperator) (lhs : Expression) (ts : List Token),
        3 * ts.length + 4 ≤ fuel →
        parse_binary_operation_rhs fuel m lhs ts ≠ .error .fuel)
    ∧ (∀ (m : Option BinaryOperator) (lhs : Expression) (ts : List Token)
        (e : Expression) (ts' : List Token),
        parse_binary_operation_rhs fuel m lhs ts = .ok (e, ts') →
        ts'.length ≤ ts.length)
    ∧ (∀ ts : List Token, 3 * ts.length + 3 ≤ fuel →
      parse_primary_expression fuel ts ≠ .error .fuel)
    ∧ (∀ (ts : List Token) (e : Expression) (ts' : List Token),
        parse_primary_expression fuel ts = .ok (e, ts') → ts'.length < ts.length)
    ∧ (∀ ts : List Token, 3 * ts.length + 2 ≤ fuel →
      parse_parentheses fuel ts ≠ .error .fuel)
    ∧ (∀ (ts : List Token) (e : Expression) (ts' : List Token),
        parse_parentheses fuel ts = .ok (e, ts') → ts'.length < ts.length) := by
  intro fuel
  induction fuel with
  | zero =>
    refine ⟨fun ts h => absurd h (by omega), ?_,
      fun m lhs ts h => absurd h (by omega), ?_,
      fun ts h => absurd h (by omega), ?_,
      fun ts h => absurd h (by omega), ?_⟩
    · intro ts e ts' h; simp [parse_binary_expression] at h
    · intro m lhs ts e ts' h; simp [parse_binary_operation_rhs] at h
    · intro ts e ts' h; simp [parse_primary_expression] at h
    · intro ts e ts' h; simp [parse_parentheses] at h
  | succ f ih =>
    obtain ⟨pbeF, pbeL, rhsF, rhsL, primF, primL, parF, parL⟩ := ih
    refine ⟨?_, ?_, ?_, ?_, ?_, ?_, ?_, ?_⟩
    · -- parse_binary_expression does not run out of fuel
      intro ts hle
      simp only [parse_binary_expression]
      split
      · rename_i e hprim
        intro hcontra
        have hfe : e = Failure.fuel := by simpa using hcontra
        subst hfe
        exact primF ts (by omega) hprim
      · rename_i lhs ts₁ hprim
        have h1 := primL ts _ _ hprim
        exact rhsF none lhs ts₁ (by omega)
    · -- parse_binary_expression consumes at least one token
      intro ts e ts' h
      simp only [parse_binary_expression] at h
      split at h
      · cases h
      · rename_i lhs ts₁ hprim
        have h1 := primL ts _ _ hprim
        have h2 := rhsL none lhs ts₁ _ _ h
        omega
    · -- parse_binary_operation_rhs does not run out of fuel
      intro m lhs ts hle
      simp only [parse_binary_operation_rhs]
      split
      · rename_i e hop
        intro hcontra
        have hfe : e = Failure.fuel := by simpa using hcontra
        subst hfe
        exact parse_operator_ne_fuel m true ts hop
      · simp
      · rename_i operator ts₁ hop
        have hcons := parse_operator_consume_some hop
        split
        · rename_i e hprim
          intro hcontra
          have hfe : e = Failure.fuel := by simpa using hcontra
          subst hfe
          exact primF ts₁ (by omega) hprim
        · rename_i rhs ts₂ hprim
          have hlen₂ := primL ts₁ _ _ hprim
          split
          · rename_i e hop₂
            intro hcontra
            have hfe : e = Failure.fuel := by simpa using hcontra
            subst hfe
            exact parse_operator_ne_fuel m false ts₂ hop₂
          · rename_i nextOp ts₂x hop₂
            split
            · rename_i next_op
              split
              · split
                · rename_i e hrec
                  intro hcontra
                  have hfe : e = Failure.fuel := by simpa using hcontra
                  subst hfe
                  exact rhsF _ _ ts₂ (by omega) hrec
                · rename_i rhs₁ ts₃ hrec
                  have hlen₃ := rhsL _ _ ts₂ _ _ hrec
                  exact rhsF m _ ts₃ (by omega)
              · exact rhsF m _ ts₂ (by omega)
            · exact rhsF m _ ts₂ (by omega)
    · -- parse_binary_operation_rhs never advances past its input
      intro m lhs ts e ts' h
      simp only [parse_binary_operation_rhs] at h
      split at h
      · cases h
      · rename_i ts₁ hop
        simp only [Except.ok.injEq, Prod.mk.injEq] at h
        obtain ⟨-, rfl⟩ := h
        exact parse_operator_length hop
      · rename_i operator ts₁ hop
        have hcons := parse_operator_consume_some hop
        split at h
        · cases h
        · rename_i rhs ts₂ hprim
          have hlen₂ := primL ts₁ _ _ hprim
          split at h
          · cases h
          · split at h
            · split at h
              · split at h
                · cases h
                · rename_i rhs₁ ts₃ hrec
                  have hlen₃ := rhsL _ _ ts₂ _ _ hrec
                  have hfin := rhsL m _ ts₃ _ _ h
                  omega
              · have hfin := rhsL m _ ts₂ _ _ h
                omega
            · have hfin := rhsL m _ ts₂ _ _ h
              omega
    · -- parse_primary_expression does not run out of fuel
      intro ts hle
      simp only [parse_primary_expression]
      split
      · refine parse_identifier_expression_ne_fuel ?_
        simp_all <;> omega
      · split
        · rename_i e hnum
          intro hcontra
          have hfe : e = Failure.fuel := by simpa using hcontra
          subst hfe
          exact parse_number_ne_fuel _ hnum
        · simp
      · refine parF _ ?_
        simp_all <;> omega
      · simp
      · simp
    · -- parse_primary_expression consumes at least one token
      intro ts e ts' h
      simp only [parse_primary_expression] at h
      split at h
      · exact parse_identifier_expression_length h
      · split at h
        · cases h
        · rename_i n ts₁ hnum
          simp only [Except.ok.injEq, Prod.mk.injEq] at h
          obtain ⟨-, rfl⟩ := h
          exact parse_number_length hnum
      · exact parL _ _ _ h
      · cases h
      · cases h
    · -- parse_parentheses does not run out of fuel
      intro ts hle
      simp only [parse_parentheses]
      split
      · rename_i pos ts₁
        split
        · rename_i e hpbe
          intro hcontra
          have hfe : e = Failure.fuel := by simpa using hcontra
          subst hfe
          refine pbeF ts₁ ?_ hpbe
          simp_all <;> omega
        · rename_i inner ts₂ hpbe
          split <;> simp
      · simp
    · -- parse_parentheses consumes at least one token
      intro ts e ts' h
      simp only [parse_parentheses] at h
      split at h
      · rename_i pos ts₁
        split at h
        · cases h
        · rename_i inner ts₂ hpbe
          have h1 := pbeL ts₁ _ _ hpbe
          split at h
          · rename_i ts₃ _
            simp only [Except.ok.injEq, Prod.mk.injEq] at h
            obtain ⟨-, rfl⟩ := h
            simp_all <;> omega
          · cases h
          · cases h
      · cases h


/-- Fuel sufficiency for `parse_top_level_expression`. -/
theorem parse_top_level_expression_ne_fuel {fuel : Nat} {ts : List Token}
    (hle : 3 * ts.length + 4 ≤ fuel) :
    parse_top_level_expression fuel ts ≠ .error .fuel := by
  unfold parse_top_level_expression
  split
  · rename_i e hpbe
    intro hcontra
    have hfe : e = Failure.fuel := by simpa using hcontra
    subst hfe
    exact (expression_fuel_invariant fuel).1 ts hle hpbe
  · simp

/-- Fuel sufficiency for `parse_function_definition`. -/
theorem parse_function_definition_ne_fuel {fuel : Nat} {ts : List Token}
    (hle : 3 * ts.length + 4 ≤ fuel) :
    parse_function_definition fuel ts ≠ .error .fuel := by
  unfold parse_function_definition
  split
  · rename_i pos tokens₁
    split
    · rename_i e hproto
      intro hcontra
      have hfe : e = Failure.fuel := by simpa using hcontra
      subst hfe
      refine parse_function_prototype_ne_fuel ?_ hproto
      simp_all <;> omega
    · rename_i proto tokens₂ hproto
      have hl := parse_function_prototype_length hproto
      split
      · rename_i e hpbe
        intro hcontra
        have hfe : e = Failure.fuel := by simpa using hcontra
        subst hfe
        refine (expression_fuel_invariant fuel).1 tokens₂ ?_ hpbe
        simp_all <;> omega
      · simp
  · simp

/-- Fuel sufficiency for `parse_extern_function`. -/
theorem parse_extern_function_ne_fuel {fuel : Nat} {ts : List Token}
    (hle : ts.length + 1 ≤ fuel) :
    parse_extern_function fuel ts ≠ .error .fuel := by
  unfold parse_extern_function
  split
  · rename_i pos tokens₁
    refine parse_function_prototype_ne_fuel ?_
    simp_all <;> omega
  · simp

/-- Fuel linear in the remaining token count suffices for the parser
iterator: the `EndOfLine` self-recursion skips one token per step and every
dispatch target terminates within the same bound. -/
theorem parser_next_ne_fuel :
    ∀ (fuel : Nat) (ts : List Token), 3 * ts.length + 5 ≤ fuel →
      parser_next fuel ts ≠ some (.error .fuel) := by
  intro fuel
  induction fuel with
  | zero => intro ts h; omega
  | succ f ih =>
    intro ts hle
    simp only [parser_next]
    split
    · simp
    · split
      · simp
      · rename_i e hdef
        intro hcontra
        have hfe : e = Failure.fuel := by simpa using hcontra
        subst hfe
        exact parse_function_definition_ne_fuel (by omega) hdef
    · split
      · simp
      · rename_i e hext
        intro hcontra
        have hfe : e = Failure.fuel := by simpa using hcontra
        subst hfe
        exact parse_extern_function_ne_fuel (by omega) hext
    · refine ih _ ?_
      simp only [List.length_cons] at hle
      omega
    · split
      · simp
      · rename_i e htop
        intro hcontra
        have hfe : e = Failure.fuel := by simpa using hcontra
        subst hfe
        exact parse_top_level_expression_ne_fuel (by omega) htop

/-- C10: every parser operation terminates on every finite token stream.
First conjunct: the public iterator entry point `parser_next` (which calls
every other parsing function) never exhausts a fuel budget linear in the
number of remaining tokens, because each climbing-loop iteration, each
`parse_type` recursion and each statement-terminator skip of the iterator
consumes at least one token. Second conjunct: each successful `parse_type`
call strictly consumes tokens. Third conjunct: the climbing loop never
grows the remaining stream, for any fuel. -/
theorem claim10_termination :
    (∀ (fuel : Nat) (tokens : List Token), 3 * tokens.length + 5 ≤ fuel →
      parser_next fuel tokens ≠ some (.error .fuel))
    ∧ (∀ (tokens : List Token) (r : PositionRangeContainer DataType)
        (rest : List Token),
        parse_type tokens = .ok (r, rest) → rest.length < tokens.length)
    ∧ (∀ (fuel : Nat) (m : Option BinaryOperator) (lhs e : Expression)
        (tokens rest : List Token),
        parse_binary_operation_rhs fuel m lhs tokens = .ok (e, rest) →
        rest.length ≤ tokens.length) :=
  ⟨parser_next_ne_fuel, parse_type_length,
    fun fuel m lhs e tokens rest h =>
      (expression_fuel_invariant fuel).2.2.2.1 m lhs tokens e rest h⟩

/-- C10 witness: the termination theorem applied at the concrete stream
`1 + 2` with fuel 14, at the one-token type stream `int`, and at the
climbing loop on the empty stream. -/
theorem claim10_witness :
    (3 * List.length [token_at (.Number 1) 1, token_at .Plus 3,
        token_at (.Number 2) 5] + 5 ≤ 14
      ∧ parser_next 14 [token_at (.Number 1) 1, token_at .Plus 3,
          token_at (.Number 2) 5] ≠ some (.error .fuel))
    ∧ (parse_type [⟨.Identifier "int", ⟨1, 1, 3⟩⟩] =
        .ok (⟨.Basic .Int, ⟨1, 1, 3⟩⟩, ([] : List Token))
      ∧ List.length ([] : List Token) <
        List.length [(⟨.Identifier "int", ⟨1, 1, 3⟩⟩ : Token)])
    ∧ (parse_binary_operation_rhs 8 none (.Number ⟨1, ⟨1, 1, 1⟩⟩) [] =
        .ok (.Number ⟨1, ⟨1, 1, 1⟩⟩, ([] : List Token))
      ∧ List.length ([] : List Token) ≤ List.length ([] : List Token)) :=
  ⟨⟨by decide, claim10_termination.1 14 _ (by decide)⟩,
    ⟨rfl, claim10_termination.2.1 _ _ _ rfl⟩,
    ⟨rfl, claim10_termination.2.2 8 none (.Number ⟨1, ⟨1, 1, 1⟩⟩)
      (.Number ⟨1, ⟨1, 1, 1⟩⟩) [] [] rfl⟩⟩

end FTL
